import Mathlib

/-!
# Verification of the CareerCompass AI agent service

Shallow embedding of `ai-agent/main.py` (FastAPI handler `analyze_career_path`)
and proofs of the specification's testable properties.

The two external calls (the upstream financial-data fetch and the generative
model) and the JSON parser `json.loads` are modelled as explicit oracles passed
to the handler; everything the handler itself does (the status-code check, the
prompt template, the markdown code-fence stripping via `str.split`, the
fallback substitution on `json.JSONDecodeError` and the response envelope) is
embedded concretely, mirroring the Python control flow match by match.

Python values that can appear in parsed JSON are modelled by `JValue`
(numbers abstracted to `Int`; no claim depends on float semantics), and Python
exceptions by `PyErr`.  A raised exception is an `Except.error`; the outer
`except Exception` of the handler corresponds to the final `match` in
`analyze_career_path`.
-/

/-- JSON-like Python value (result of `json.loads`, content of the response
envelope).  Numbers are abstracted to `Int`. -/
inductive JValue where
  | null : JValue
  | bool : Bool → JValue
  | num : Int → JValue
  | str : String → JValue
  | arr : List JValue → JValue
  | obj : List (String × JValue) → JValue

/-- The Python exceptions that can arise in the handler.  `httpException`
models `fastapi.HTTPException` (which subclasses `Exception`, so the
handler's `except Exception` clause catches it). -/
inductive PyErr where
  | keyError : String → PyErr
  | typeError : String → PyErr
  | jsonDecodeError : String → PyErr
  | httpException : Nat → String → PyErr
  | transportError : String → PyErr
  | attributeError : String → PyErr

/-- A single-quote character as a string (used by Python `repr`/`str` of
exceptions and containers). -/
def sQuote : String := String.singleton (Char.ofNat 39)

/-- Python `str(e)` for each modelled exception.  `str(KeyError(k))` is the
repr of the key; `str(HTTPException(s, d))` is the starlette rendering
`f"{status_code}: {detail}"`; the remaining exceptions carry their message. -/
def pyStrOfErr : PyErr → String
  | .keyError k => sQuote ++ k ++ sQuote
  | .typeError m => m
  | .jsonDecodeError m => m
  | .httpException status detail => toString status ++ ": " ++ detail
  | .transportError m => m
  | .attributeError m => m

/-- Python subscripting `v[k]` with a string key: a `KeyError` when the key is
absent from a dict, a `TypeError` when `v` is not a dict.  Objects produced by
`json.loads` have no duplicate keys, so first-match lookup is faithful. -/
def getKey (v : JValue) (k : String) : Except PyErr JValue :=
  match v with
  | .obj kvs =>
      match kvs.lookup k with
      | some x => .ok x
      | none => .error (.keyError k)
  | _ => .error (.typeError "value is not subscriptable by a string key")

/- Python `repr` of a `JValue` (containers render their elements with
`repr`; string escaping inside `repr` is not modelled, no claim depends on
it). -/
mutual

def pyRepr : JValue → String
  | .null => "None"
  | .bool true => "True"
  | .bool false => "False"
  | .num n => toString n
  | .str s => sQuote ++ s ++ sQuote
  | .arr xs => "[" ++ pyReprItems xs ++ "]"
  | .obj kvs => "\x7b" ++ pyReprFields kvs ++ "\x7d"

def pyReprItems : List JValue → String
  | [] => ""
  | [x] => pyRepr x
  | x :: y :: rest => pyRepr x ++ ", " ++ pyReprItems (y :: rest)

def pyReprFields : List (String × JValue) → String
  | [] => ""
  | [(k, v)] => sQuote ++ k ++ sQuote ++ ": " ++ pyRepr v
  | (k, v) :: y :: rest => sQuote ++ k ++ sQuote ++ ": " ++ pyRepr v ++ ", " ++ pyReprFields (y :: rest)

end

/-- Python `str` of a `JValue`, as applied by f-string interpolation:
identity on strings, `repr` otherwise. -/
def pyStr (v : JValue) : String :=
  match v with
  | .str s => s
  | v => pyRepr v

/-- One escaped character of a JSON string literal, as produced by
`json.dumps` (the common escapes; `\uXXXX` escaping of other control and
non-ASCII characters is not modelled, no claim depends on it). -/
def jsonEscapeChar (c : Char) : String :=
  if c = '"' then "\\\""
  else if c = '\\' then "\\\\"
  else if c = '\n' then "\\n"
  else if c = '\t' then "\\t"
  else if c = '\r' then "\\r"
  else String.singleton c

/-- A JSON string literal as produced by `json.dumps`. -/
def jsonQuote (s : String) : String :=
  "\"" ++ String.join (s.data.map jsonEscapeChar) ++ "\""

/-- `n` spaces. -/
def spaces (n : Nat) : String := String.mk (List.replicate n ' ')

/- Rendering of `json.dumps(v, indent=2)`: `ind` is the indentation of the
closing bracket of the value currently being rendered. -/
mutual

def dumpsVal (ind : Nat) : JValue → String
  | .null => "null"
  | .bool true => "true"
  | .bool false => "false"
  | .num n => toString n
  | .str s => jsonQuote s
  | .arr [] => "[]"
  | .arr (x :: xs) => "[\n" ++ dumpsItems (ind + 2) (x :: xs) ++ "\n" ++ spaces ind ++ "]"
  | .obj [] => "\x7b\x7d"
  | .obj (kv :: kvs) => "\x7b\n" ++ dumpsFields (ind + 2) (kv :: kvs) ++ "\n" ++ spaces ind ++ "\x7d"

def dumpsItems (ind : Nat) : List JValue → String
  | [] => ""
  | [x] => spaces ind ++ dumpsVal ind x
  | x :: y :: rest => spaces ind ++ dumpsVal ind x ++ ",\n" ++ dumpsItems ind (y :: rest)

def dumpsFields (ind : Nat) : List (String × JValue) → String
  | [] => ""
  | [(k, v)] => spaces ind ++ jsonQuote k ++ ": " ++ dumpsVal ind v
  | (k, v) :: y :: rest =>
      spaces ind ++ jsonQuote k ++ ": " ++ dumpsVal ind v ++ ",\n" ++ dumpsFields ind (y :: rest)

end

/-- `json.dumps(v, indent=2)` as used in the prompt template. -/
def dumps2 (v : JValue) : String := dumpsVal 0 v

/-- Joining the items of a Python list with a separator, `sep.join(xs)`:
every item must be a `str`, otherwise a `TypeError` is raised. -/
def joinStrItems (sepStr : String) : List JValue → Except PyErr String
  | [] => .ok ""
  | [x] =>
      match x with
      | .str s => .ok s
      | _ => .error (.typeError "sequence item: expected str instance")
  | x :: y :: rest =>
      match x with
      | .str s =>
          match joinStrItems sepStr (y :: rest) with
          | .ok r => .ok (s ++ sepStr ++ r)
          | .error e => .error e
      | _ => .error (.typeError "sequence item: expected str instance")

/-- Python `sep.join(v)`: joins a list of strings; a string is an iterable of
its characters; a dict is an iterable of its (string) keys; anything else is
not iterable and raises a `TypeError`. -/
def pyJoin (sepStr : String) (v : JValue) : Except PyErr String :=
  match v with
  | .arr xs => joinStrItems sepStr xs
  | .str s => .ok (String.intercalate sepStr (s.data.map String.singleton))
  | .obj kvs => .ok (String.intercalate sepStr (kvs.map Prod.fst))
  | _ => .error (.typeError "can only join an iterable")

/-! ## Python `str.split` and the code-fence stripping of the handler -/

/-- Does `sep` occur as a contiguous substring?  Model of Python `sep in s`
for nonempty `sep`. -/
def occursIn (sep : List Char) : List Char → Bool
  | [] => sep.isEmpty
  | c :: rest => sep.isPrefixOf (c :: rest) || occursIn sep rest

/-- The prefix strictly before the first occurrence of `sep` (the whole list
when `sep` does not occur).  Specification-side description of
`s.split(sep)[0]`. -/
def takeUntilFirst (sep : List Char) : List Char → List Char
  | [] => []
  | c :: rest => if sep.isPrefixOf (c :: rest) then [] else c :: takeUntilFirst sep rest

/-- Everything strictly after the first occurrence of `sep` (empty when `sep`
does not occur). -/
def dropThroughFirst (sep : List Char) : List Char → List Char
  | [] => []
  | c :: rest =>
      if sep.isPrefixOf (c :: rest) then List.drop (sep.length - 1) rest
      else dropThroughFirst sep rest

/-- Python `s.split(sep)` for a nonempty separator: the segments of `s`
between the non-overlapping occurrences of `sep`, scanned left to right. -/
def pySplit (sep : List Char) : List Char → List (List Char)
  | [] => [[]]
  | c :: rest =>
      if sep.isPrefixOf (c :: rest) then
        [] :: pySplit sep (List.drop (sep.length - 1) rest)
      else
        match pySplit sep rest with
        | [] => [[c]]
        | seg :: segs => (c :: seg) :: segs
termination_by s => s.length
decreasing_by
  · simp [List.length_drop]; omega
  · simp

/-- The opening delimiter of a JSON-labeled markdown code fence. -/
def fenceJson : List Char := "```json".data

/-- A plain markdown code fence. -/
def fence : List Char := "```".data

/-- The markdown stripping of the handler, verbatim from the source:
if the text mentions a JSON-labeled fence, take
`ai_text.split("```json")[1].split("```")[0]`; else if it mentions any fence,
take `ai_text.split("```")[1].split("```")[0]`; else leave it unchanged.
The guarding membership tests keep the index-1 accesses in bounds, so the
out-of-bounds default of `List.getD` is never used. -/
def stripFence (t : List Char) : List Char :=
  if occursIn fenceJson t then
    (pySplit fence ((pySplit fenceJson t).getD 1 [])).getD 0 []
  else if occursIn fence t then
    (pySplit fence ((pySplit fence t).getD 1 [])).getD 0 []
  else t

/-! ## The request, the oracles for the two external services, and the
fixed data of the handler -/

/-- The request body of `POST /api/analyze-career` (`AnalysisRequest` in the
source, with its default upstream base URL). -/
structure AnalysisRequest where
  userId : String
  mockDataApiUrl : String := "http://mock-data-api-service:8080"

/-- The upstream HTTP response: status code and raw body text
(`response.json()` parses the latter). -/
structure UpstreamResponse where
  status : Nat
  bodyText : String

/-- Outcome of the outbound GET: either a response or a transport-level
exception raised by the HTTP client. -/
inductive FetchResult where
  | ok : UpstreamResponse → FetchResult
  | transportError : String → FetchResult

/-- The generative-model response object; reading its `text` attribute can
itself raise. -/
structure ModelResponse where
  text : Except PyErr String

/-- The two external services the handler calls: the upstream data API
(keyed by base URL and user id) and the generative model (keyed by the
prompt).  Each handler run is a pure function of these oracles. -/
structure AgentEnv where
  fetch : String → String → FetchResult
  generate : String → Except PyErr ModelResponse

/-- Shape check of the (otherwise unused) pydantic model
`CareerRecommendation`: the five required fields with `str` or `list`
values, extra keys ignored. -/
def matchesCareerRecommendation : JValue → Bool
  | .obj kvs =>
      (match kvs.lookup "primaryGoal" with | some (.str _) => true | _ => false) &&
      (match kvs.lookup "recommendedSkills" with | some (.arr _) => true | _ => false) &&
      (match kvs.lookup "suggestedCourses" with | some (.arr _) => true | _ => false) &&
      (match kvs.lookup "financialAdvice" with | some (.str _) => true | _ => false) &&
      (match kvs.lookup "nextSteps" with | some (.arr _) => true | _ => false)
  | _ => false

/-- The hardcoded fallback recommendation substituted when JSON parsing of
the model output fails (source lines 110-123). -/
def fallbackRecommendation : JValue :=
  .obj
    [("primaryGoal", .str "Build technical skills for career advancement"),
     ("recommendedSkills",
       .arr [.str "Data Analysis", .str "Python Programming", .str "Communication"]),
     ("suggestedCourses",
       .arr
         [.obj [("name", .str "Python for Data Science"), ("provider", .str "Coursera"),
                ("estimatedCost", .str "$49")],
          .obj [("name", .str "Excel to Python"), ("provider", .str "Udemy"),
                ("estimatedCost", .str "$85")]]),
     ("financialAdvice", .str "Consider allocating 15% of income to skill development"),
     ("nextSteps",
       .arr [.str "Start with one online course this month",
             .str "Set up a dedicated learning budget",
             .str "Track progress weekly"])]

/-! Literal pieces of the prompt f-string (source lines 64-92), with the
interpolated expressions removed; `\x7b`/`\x7d` are the braces the doubled
braces of the f-string produce. -/

def promptP1 : String :=
  "\n        Analyze this financial profile and provide career guidance:\n\n        User Profile: "

def promptP2 : String := "\n        Monthly Income: $"

def promptP3 : String := "\n        Career Stage: "

def promptP4 : String := "\n\n        Spending Breakdown:\n        "

def promptP5 : String := "\n\n        Recent Transactions:\n        "

def promptP6 : String := "\n\n        Current Goals: "

def promptP7 : String :=
  "\n\n        Please provide career guidance in this JSON format:\n        \x7b\n            \"primaryGoal\": \"One main career objective based on their profile\",\n            \"recommendedSkills\": [\"skill1\", \"skill2\", \"skill3\"],\n            \"suggestedCourses\": [\n                \x7b\"name\": \"Course Name\", \"provider\": \"Platform\", \"estimatedCost\": \"$XX\"\x7d,\n                \x7b\"name\": \"Course Name 2\", \"provider\": \"Platform\", \"estimatedCost\": \"$XX\"\x7d\n            ],\n            \"financialAdvice\": \"Specific financial recommendation based on their spending\",\n            \"nextSteps\": [\"actionable step 1\", \"actionable step 2\", \"actionable step 3\"]\n        \x7d\n\n        Focus on practical, actionable advice based on their current financial situation and career stage.\n        "

/-- The prompt f-string of the handler: the embedded expressions are
evaluated left to right (`user_data['name']`, `['profile']`,
`['monthlyIncome']`, `['careerStage']`, `json.dumps(...spendingCategories...)`,
`json.dumps(...recentTransactions...)`, `', '.join(user_data['goals'])`) and
the first one to raise aborts the f-string. -/
def buildPrompt (userData : JValue) : Except PyErr String :=
  match getKey userData "name" with
  | .error e => .error e
  | .ok nameV =>
    match getKey userData "profile" with
    | .error e => .error e
    | .ok profileV =>
      match getKey userData "monthlyIncome" with
      | .error e => .error e
      | .ok incomeV =>
        match getKey userData "careerStage" with
        | .error e => .error e
        | .ok stageV =>
          match getKey userData "spendingCategories" with
          | .error e => .error e
          | .ok spendingV =>
            match getKey userData "recentTransactions" with
            | .error e => .error e
            | .ok txnsV =>
              match getKey userData "goals" with
              | .error e => .error e
              | .ok goalsV =>
                match pyJoin ", " goalsV with
                | .error e => .error e
                | .ok goalsStr =>
                  .ok (promptP1 ++ (pyStr nameV ++ (" - " ++ (pyStr profileV ++
                    (promptP2 ++ (pyStr incomeV ++ (promptP3 ++ (pyStr stageV ++
                    (promptP4 ++ (dumps2 spendingV ++ (promptP5 ++ (dumps2 txnsV ++
                    (promptP6 ++ (goalsStr ++ promptP7))))))))))))))

/-- The body of the inner `try` of the handler: read `response.text`, strip
markdown fences, parse with `json.loads` (the `loads` oracle). -/
def extractModelText (loads : String → Except PyErr JValue)
    (modelResp : ModelResponse) : Except PyErr JValue :=
  match modelResp.text with
  | .error e => .error e
  | .ok t => loads (String.mk (stripFence t.data))

/-- The inner `try`/`except json.JSONDecodeError` of the handler: a
`JSONDecodeError` anywhere in the inner body is replaced by the fallback
recommendation; every other exception propagates. -/
def parseModelOutput (loads : String → Except PyErr JValue)
    (modelResp : ModelResponse) : Except PyErr JValue :=
  match extractModelText loads modelResp with
  | .ok r => .ok r
  | .error (.jsonDecodeError _) => .ok fallbackRecommendation
  | .error e => .error e

/-- The handler body after the status-code check: parse the upstream body,
build the prompt, call the model, parse its output, and build the response
envelope (which re-reads `user_data['profile']`). -/
def afterStatusCheck (loads : String → Except PyErr JValue) (env : AgentEnv)
    (req : AnalysisRequest) (bodyText : String) : Except PyErr JValue :=
  match loads bodyText with
  | .error e => .error e
  | .ok userData =>
    match buildPrompt userData with
    | .error e => .error e
    | .ok prompt =>
      match env.generate prompt with
      | .error e => .error e
      | .ok modelResp =>
        match parseModelOutput loads modelResp with
        | .error e => .error e
        | .ok recommendation =>
          match getKey userData "profile" with
          | .error e => .error e
          | .ok p =>
            .ok (.obj
              [("success", .bool true),
               ("userId", .str req.userId),
               ("userProfile", p),
               ("analysis", recommendation),
               ("confidence", .str "high")])

/-- The body of the outer `try` of the handler: fetch the user data, raise
`HTTPException(404, "User data not found")` on any status other than 200,
otherwise continue with `afterStatusCheck`. -/
def analyze_career_path_core (loads : String → Except PyErr JValue)
    (env : AgentEnv) (req : AnalysisRequest) : Except PyErr JValue :=
  match env.fetch req.mockDataApiUrl req.userId with
  | .transportError m => .error (.transportError m)
  | .ok resp =>
      if resp.status ≠ 200 then
        .error (.httpException 404 "User data not found")
      else afterStatusCheck loads env req resp.bodyText

/-- What the inbound caller observes: a 200 with the envelope, or an
`HTTPException` with a status code and a detail string. -/
inductive HttpOutcome where
  | success : JValue → HttpOutcome
  | failure : Nat → String → HttpOutcome

/-- The complete handler `analyze_career_path`, outer `except Exception`
included: every exception escaping the `try` body, the `HTTPException(404)`
of the status check included, is converted to
`HTTPException(500, f"Analysis failed: {str(e)}")`. -/
def analyze_career_path (loads : String → Except PyErr JValue)
    (env : AgentEnv) (req : AnalysisRequest) : HttpOutcome :=
  match analyze_career_path_core loads env req with
  | .ok v => .success v
  | .error e => .failure 500 ("Analysis failed: " ++ pyStrOfErr e)

/-- The `GET /health` endpoint. -/
def health_check : JValue :=
  .obj [("status", .str "healthy"), ("service", .str "ai-career-agent")]

/-! ## Properties of `pySplit` in terms of first occurrences -/

/-- Boolean prefix test unfolded to an append decomposition. -/
theorem isPrefixOf_iff_exists_append {p s : List Char} :
    p.isPrefixOf s = true ↔ ∃ t, s = p ++ t := by
  induction p generalizing s with
  | nil => simp [List.isPrefixOf]
  | cons a as ih =>
    cases s with
    | nil => simp [List.isPrefixOf]
    | cons b bs =>
      simp only [List.isPrefixOf, Bool.and_eq_true, beq_iff_eq, ih, List.cons_append,
        List.cons.injEq]
      constructor
      · rintro ⟨hab, t, ht⟩
        exact ⟨t, hab.symm, ht⟩
      · rintro ⟨t, hab, ht⟩
        exact ⟨hab.symm, t, ht⟩

/-- The part kept by `takeUntilFirst` is an initial segment of the input. -/
theorem takeUntilFirst_append_eq (sep : List Char) (s : List Char) :
    ∃ t, s = takeUntilFirst sep s ++ t := by
  induction s with
  | nil => exact ⟨[], rfl⟩
  | cons c rest ih =>
    cases hp : sep.isPrefixOf (c :: rest) with
    | true => exact ⟨c :: rest, by simp [takeUntilFirst, hp]⟩
    | false =>
      obtain ⟨t, ht⟩ := ih
      refine ⟨t, ?_⟩
      simp only [takeUntilFirst, hp, Bool.false_eq_true, if_false, List.cons_append]
      exact congrArg (c :: ·) ht

/-- If `sep` does not start at the head position, truncating the tail at the
first `sep` occurrence cannot create an occurrence at the head position. -/
theorem isPrefixOf_takeUntilFirst_false (sep : List Char) (c : Char) (rest : List Char)
    (h : sep.isPrefixOf (c :: rest) = false) :
    sep.isPrefixOf (c :: takeUntilFirst sep rest) = false := by
  cases hc : sep.isPrefixOf (c :: takeUntilFirst sep rest) with
  | false => rfl
  | true =>
    exfalso
    obtain ⟨t, ht⟩ := isPrefixOf_iff_exists_append.mp hc
    obtain ⟨u, hu⟩ := takeUntilFirst_append_eq sep rest
    have hocc : sep.isPrefixOf (c :: rest) = true := by
      refine isPrefixOf_iff_exists_append.mpr ⟨t ++ u, ?_⟩
      calc c :: rest = c :: (takeUntilFirst sep rest ++ u) := by rw [← hu]
        _ = (c :: takeUntilFirst sep rest) ++ u := rfl
        _ = (sep ++ t) ++ u := by rw [ht]
        _ = sep ++ (t ++ u) := by rw [List.append_assoc]
    rw [h] at hocc
    exact Bool.false_ne_true hocc

/-- The prefix before the first occurrence of `sep` contains no occurrence
of `sep`. -/
theorem occursIn_takeUntilFirst (sep : List Char) (hsep : sep ≠ []) (s : List Char) :
    occursIn sep (takeUntilFirst sep s) = false := by
  induction s with
  | nil =>
    cases sep with
    | nil => exact absurd rfl hsep
    | cons a as => rfl
  | cons c rest ih =>
    cases hp : sep.isPrefixOf (c :: rest) with
    | true =>
      cases sep with
      | nil => exact absurd rfl hsep
      | cons a as => simp [takeUntilFirst, hp, occursIn]
    | false =>
      simp [takeUntilFirst, hp, occursIn, isPrefixOf_takeUntilFirst_false sep c rest hp, ih]

/-- When `sep` does not occur, `takeUntilFirst` keeps the whole input. -/
theorem takeUntilFirst_of_not_occurs (sep : List Char) (s : List Char)
    (h : occursIn sep s = false) : takeUntilFirst sep s = s := by
  induction s with
  | nil => rfl
  | cons c rest ih =>
    simp only [occursIn, Bool.or_eq_false_iff] at h
    simp [takeUntilFirst, h.1, ih h.2]

/-- Truncating at the first occurrence of `sep` is idempotent. -/
theorem takeUntilFirst_takeUntilFirst (sep : List Char) (hsep : sep ≠ []) (s : List Char) :
    takeUntilFirst sep (takeUntilFirst sep s) = takeUntilFirst sep s :=
  takeUntilFirst_of_not_occurs sep _ (occursIn_takeUntilFirst sep hsep s)

/-- Characterization of Python `str.split` for a nonempty separator: the
first segment is the prefix before the first occurrence, and the remaining
segments are the split of what follows that occurrence. -/
theorem pySplit_eq (sep : List Char) (hsep : sep ≠ []) (s : List Char) :
    pySplit sep s =
      takeUntilFirst sep s ::
        (if occursIn sep s then pySplit sep (dropThroughFirst sep s) else []) := by
  induction s with
  | nil =>
    cases sep with
    | nil => exact absurd rfl hsep
    | cons a as => simp [pySplit, takeUntilFirst, occursIn, dropThroughFirst]
  | cons c rest ih =>
    cases hp : sep.isPrefixOf (c :: rest) with
    | true => simp [pySplit, takeUntilFirst, occursIn, dropThroughFirst, hp]
    | false =>
      simp only [pySplit, takeUntilFirst, occursIn, dropThroughFirst, hp,
        Bool.false_eq_true, if_false, Bool.false_or, ih]

theorem pySplit_getD_zero (sep : List Char) (hsep : sep ≠ []) (s : List Char) :
    (pySplit sep s).getD 0 [] = takeUntilFirst sep s := by
  rw [pySplit_eq sep hsep s]
  rfl

theorem pySplit_getD_one (sep : List Char) (hsep : sep ≠ []) (s : List Char)
    (h : occursIn sep s = true) :
    (pySplit sep s).getD 1 [] = takeUntilFirst sep (dropThroughFirst sep s) := by
  rw [pySplit_eq sep hsep s, h]
  simp only [if_true, List.getD_cons_succ]
  exact pySplit_getD_zero sep hsep _

/-- The fence stripping, written with the splits eliminated in favour of
first-occurrence truncations. -/
theorem stripFence_cases (t : List Char) :
    stripFence t =
      if occursIn fenceJson t then
        takeUntilFirst fence (takeUntilFirst fenceJson (dropThroughFirst fenceJson t))
      else if occursIn fence t then
        takeUntilFirst fence (dropThroughFirst fence t)
      else t := by
  unfold stripFence
  cases h1 : occursIn fenceJson t with
  | true =>
    simp only [if_true]
    rw [pySplit_getD_one fenceJson (by decide) t h1, pySplit_getD_zero fence (by decide)]
  | false =>
    simp only [Bool.false_eq_true, if_false]
    cases h2 : occursIn fence t with
    | true =>
      simp only [if_true]
      rw [pySplit_getD_one fence (by decide) t h2, pySplit_getD_zero fence (by decide),
        takeUntilFirst_takeUntilFirst fence (by decide)]
    | false => simp

/-- C6: the extraction step applied to the raw model text follows the
three-case rule of the spec: if the text contains a JSON-labeled fence
delimiter, the content of that block is taken (the text after the first
occurrence of the delimiter, truncated at the following occurrence — Python
split is non-overlapping — and at the first closing fence); otherwise, if any
fence exists, the content between the first and second fence is taken;
otherwise the raw text is used verbatim as the parse input. -/
theorem extraction_three_case_rule (t : List Char) :
    stripFence t =
      if occursIn fenceJson t then
        takeUntilFirst fence (takeUntilFirst fenceJson (dropThroughFirst fenceJson t))
      else if occursIn fence t then
        takeUntilFirst fence (dropThroughFirst fence t)
      else t :=
  stripFence_cases t

/-! ## Substring containment, for the prompt-rendering property -/

/-- The underlying character list of a concatenation. -/
theorem strData_append (a b : String) : (a ++ b).data = a.data ++ b.data := by
  cases a
  cases b
  rfl

/-- `need` occurs contiguously inside `hay`. -/
def strContains (hay need : String) : Prop :=
  ∃ l r, hay.data = l ++ need.data ++ r

theorem strContains_head (x b : String) : strContains (x ++ b) x :=
  ⟨[], b.data, by simp [strData_append]⟩

theorem strContains_cons (a : String) {p x : String} (h : strContains p x) :
    strContains (a ++ p) x := by
  obtain ⟨l, r, hd⟩ := h
  exact ⟨a.data ++ l, r, by simp [strData_append, hd, List.append_assoc]⟩

/-- The seven user-data fields read by the prompt template. -/
def promptFields : List String :=
  ["name", "profile", "monthlyIncome", "careerStage", "spendingCategories",
   "recentTransactions", "goals"]

/-- A successfully rendered prompt needs every referenced field to be
present: `buildPrompt` can only return `.ok` when each subscript access
succeeded. -/
theorem buildPrompt_field_ok {ud : JValue} {p : String} (hok : buildPrompt ud = .ok p)
    {f : String} (hf : f ∈ promptFields) : ∃ v, getKey ud f = .ok v := by
  unfold buildPrompt at hok
  cases h1 : getKey ud "name" with
  | error e => rw [h1] at hok; simp at hok
  | ok v1 =>
  rw [h1] at hok
  cases h2 : getKey ud "profile" with
  | error e => rw [h2] at hok; simp at hok
  | ok v2 =>
  rw [h2] at hok
  cases h3 : getKey ud "monthlyIncome" with
  | error e => rw [h3] at hok; simp at hok
  | ok v3 =>
  rw [h3] at hok
  cases h4 : getKey ud "careerStage" with
  | error e => rw [h4] at hok; simp at hok
  | ok v4 =>
  rw [h4] at hok
  cases h5 : getKey ud "spendingCategories" with
  | error e => rw [h5] at hok; simp at hok
  | ok v5 =>
  rw [h5] at hok
  cases h6 : getKey ud "recentTransactions" with
  | error e => rw [h6] at hok; simp at hok
  | ok v6 =>
  rw [h6] at hok
  cases h7 : getKey ud "goals" with
  | error e => rw [h7] at hok; simp at hok
  | ok v7 =>
  simp only [promptFields, List.mem_cons, List.not_mem_nil, or_false] at hf
  rcases hf with rfl | rfl | rfl | rfl | rfl | rfl | rfl
  · exact ⟨v1, h1⟩
  · exact ⟨v2, h2⟩
  · exact ⟨v3, h3⟩
  · exact ⟨v4, h4⟩
  · exact ⟨v5, h5⟩
  · exact ⟨v6, h6⟩
  · exact ⟨v7, h7⟩

/-! ## Concrete sample data and oracle instantiations used by the witnesses -/

/-- A well-formed upstream user-data object with all seven referenced
fields. -/
def sampleUserData : JValue :=
  .obj
    [("name", .str "Alice"), ("profile", .str "Engineer"), ("monthlyIncome", .num 5000),
     ("careerStage", .str "mid"),
     ("spendingCategories", .obj [("rent", .num 1500)]),
     ("recentTransactions", .arr [.obj [("desc", .str "coffee"), ("amount", .num 4)]]),
     ("goals", .arr [.str "save more", .str "learn python"])]

/-- A model output value that matches the `CareerRecommendation` shape. -/
def recGood : JValue :=
  .obj
    [("primaryGoal", .str "g"), ("recommendedSkills", .arr []),
     ("suggestedCourses", .arr []), ("financialAdvice", .str "a"),
     ("nextSteps", .arr [])]

/-- A `json.loads` oracle that rejects every input. -/
def loadsStub : String → Except PyErr JValue :=
  fun _ => .error (.jsonDecodeError "Expecting value: line 1 column 1 (char 0)")

/-- A `json.loads` oracle that accepts the sample body and the sample
recommendation text and rejects everything else. -/
def loadsOk : String → Except PyErr JValue :=
  fun s =>
    if s = "BODY" then .ok sampleUserData
    else if s = "REC" then .ok recGood
    else .error (.jsonDecodeError "Expecting value: line 1 column 1 (char 0)")

/-- A generative-model oracle answering with plain unfenced text. -/
def genStub : String → Except PyErr ModelResponse :=
  fun _ => .ok ⟨.ok "plain text with no json in it"⟩

/-! ## The claims -/

/-- C1 (code bug): for an upstream response with status other than 200, the
handler raises `HTTPException(404, "User data not found")`, but the outer
`except Exception` catches it (fastapi's `HTTPException` subclasses
`Exception`) and re-raises it as HTTP 500 with detail
`"Analysis failed: " ++ str(e)`; the inbound caller therefore observes a 500,
not the 404 the specification states.  The generative model is never invoked
on this path: the outcome is identical for every `generate` oracle. -/
theorem c1_notfound_surfaced_as_500 (loads : String → Except PyErr JValue)
    (gen gen2 : String → Except PyErr ModelResponse) :
    analyze_career_path loads ⟨fun _ _ => FetchResult.ok ⟨404, ""⟩, gen⟩
        ⟨"u1", "http://mock-data-api-service:8080"⟩ =
      .failure 500
        ("Analysis failed: " ++ pyStrOfErr (.httpException 404 "User data not found")) ∧
    analyze_career_path loads ⟨fun _ _ => FetchResult.ok ⟨404, ""⟩, gen⟩
        ⟨"u1", "http://mock-data-api-service:8080"⟩ =
      analyze_career_path loads ⟨fun _ _ => FetchResult.ok ⟨404, ""⟩, gen2⟩
        ⟨"u1", "http://mock-data-api-service:8080"⟩ :=
  ⟨rfl, rfl⟩

/-- C2 counterexample: an upstream response with the 2xx status 201 is not
treated as success: the handler takes its `status_code != 200` branch, so the
request fails (via the converted 404) instead of proceeding to parse the body
and build the prompt. -/
theorem c2_counterexample_status_201 :
    analyze_career_path loadsStub ⟨fun _ _ => FetchResult.ok ⟨201, "ignored"⟩, genStub⟩
        ⟨"u2", "http://mock-data-api-service:8080"⟩ =
      .failure 500
        ("Analysis failed: " ++ pyStrOfErr (.httpException 404 "User data not found")) := rfl

/-- C2 (amended): the NotFound exception is raised exactly for upstream
status ≠ 200 — 2xx statuses other than 200 (201, 204, ...) take the same
failure path — while a response with status exactly 200 proceeds to parse the
body and build the prompt (`afterStatusCheck`). -/
theorem c2_amended_status_dichotomy (loads : String → Except PyErr JValue)
    (env : AgentEnv) (req : AnalysisRequest) (resp : UpstreamResponse)
    (hf : env.fetch req.mockDataApiUrl req.userId = .ok resp) :
    (resp.status ≠ 200 →
      analyze_career_path loads env req =
        .failure 500
          ("Analysis failed: " ++ pyStrOfErr (.httpException 404 "User data not found"))) ∧
    (resp.status = 200 →
      analyze_career_path_core loads env req =
        afterStatusCheck loads env req resp.bodyText) := by
  constructor
  · intro hne
    unfold analyze_career_path analyze_career_path_core
    rw [hf]
    simp [hne]
  · intro h200
    unfold analyze_career_path_core
    rw [hf]
    simp [h200]

theorem c2_amended_witness :
    (analyze_career_path loadsStub ⟨fun _ _ => FetchResult.ok ⟨204, "b"⟩, genStub⟩
        ⟨"u2w", "http://mock-data-api-service:8080"⟩ =
      .failure 500
        ("Analysis failed: " ++ pyStrOfErr (.httpException 404 "User data not found"))) ∧
    (analyze_career_path_core loadsStub ⟨fun _ _ => FetchResult.ok ⟨200, "b"⟩, genStub⟩
        ⟨"u2w", "http://mock-data-api-service:8080"⟩ =
      afterStatusCheck loadsStub ⟨fun _ _ => FetchResult.ok ⟨200, "b"⟩, genStub⟩
        ⟨"u2w", "http://mock-data-api-service:8080"⟩ "b") :=
  ⟨(c2_amended_status_dichotomy loadsStub _ _ ⟨204, "b"⟩ rfl).1 (by decide),
   (c2_amended_status_dichotomy loadsStub _ _ ⟨200, "b"⟩ rfl).2 rfl⟩

/-- C3: when the extracted model text is not valid JSON (`json.loads` raises
a `JSONDecodeError`), the analysis field of the returned envelope is exactly
the hardcoded fallback recommendation and the request still completes
successfully. -/
theorem fallback_on_invalid_model_json (loads : String → Except PyErr JValue)
    (env : AgentEnv) (req : AnalysisRequest) (resp : UpstreamResponse)
    (ud : JValue) (pr : String) (mr : ModelResponse) (t m : String) (p : JValue)
    (hf : env.fetch req.mockDataApiUrl req.userId = .ok resp)
    (hst : resp.status = 200)
    (hud : loads resp.bodyText = .ok ud)
    (hbp : buildPrompt ud = .ok pr)
    (hgen : env.generate pr = .ok mr)
    (htext : mr.text = .ok t)
    (hparse : loads (String.mk (stripFence t.data)) = .error (.jsonDecodeError m))
    (hprof : getKey ud "profile" = .ok p) :
    analyze_career_path loads env req =
      .success (.obj
        [("success", .bool true), ("userId", .str req.userId), ("userProfile", p),
         ("analysis", fallbackRecommendation), ("confidence", .str "high")]) := by
  unfold analyze_career_path analyze_career_path_core afterStatusCheck parseModelOutput
    extractModelText
  rw [hf]
  simp [hst, hud, hbp, hgen, htext, hparse, hprof]

theorem fallback_on_invalid_model_json_witness :
    analyze_career_path loadsOk ⟨fun _ _ => FetchResult.ok ⟨200, "BODY"⟩, genStub⟩
        ⟨"u3", "http://mock-data-api-service:8080"⟩ =
      .success (.obj
        [("success", .bool true), ("userId", .str "u3"), ("userProfile", .str "Engineer"),
         ("analysis", fallbackRecommendation), ("confidence", .str "high")]) :=
  fallback_on_invalid_model_json loadsOk ⟨fun _ _ => FetchResult.ok ⟨200, "BODY"⟩, genStub⟩
    ⟨"u3", "http://mock-data-api-service:8080"⟩ ⟨200, "BODY"⟩ sampleUserData _
    ⟨.ok "plain text with no json in it"⟩ "plain text with no json in it"
    "Expecting value: line 1 column 1 (char 0)" (.str "Engineer")
    rfl rfl rfl rfl rfl rfl rfl rfl

/-- A `json.loads` oracle that parses the sample body, and parses the model
text `"WRONG"` to a JSON object that does not match the
`CareerRecommendation` shape. -/
def loadsC4 : String → Except PyErr JValue :=
  fun s =>
    if s = "BODY" then .ok sampleUserData
    else if s = "WRONG" then .ok (.obj [("foo", .num 1)])
    else .error (.jsonDecodeError "Expecting value: line 1 column 1 (char 0)")

/-- A model oracle answering `"WRONG"` (valid JSON of the wrong shape, no
code fence). -/
def genC4 : String → Except PyErr ModelResponse := fun _ => .ok ⟨.ok "WRONG"⟩

/-- C4 counterexample: model text that is valid JSON but does not match the
`CareerRecommendation` shape is NOT replaced by the fallback — the handler
returns it verbatim in `analysis`.  The pydantic model `CareerRecommendation`
is declared in the source but never applied: the only parse is `json.loads`. -/
theorem c4_counterexample_wrong_shape :
    analyze_career_path loadsC4 ⟨fun _ _ => FetchResult.ok ⟨200, "BODY"⟩, genC4⟩
        ⟨"u4", "http://mock-data-api-service:8080"⟩ =
      .success (.obj
        [("success", .bool true), ("userId", .str "u4"), ("userProfile", .str "Engineer"),
         ("analysis", .obj [("foo", .num 1)]), ("confidence", .str "high")]) ∧
    matchesCareerRecommendation (.obj [("foo", .num 1)]) = false ∧
    JValue.obj [("foo", .num 1)] ≠ fallbackRecommendation := by
  refine ⟨rfl, rfl, ?_⟩
  intro h
  simp [fallbackRecommendation] at h

/-- C4 (amended): the extracted model text is parsed as generic JSON only
(`json.loads`); the `CareerRecommendation` shape is never checked.  Whenever
that JSON parse fails with a `JSONDecodeError` the fixed fallback
recommendation is substituted; when it succeeds, the parsed value is used as
the analysis whatever its shape. -/
theorem c4_amended_generic_json_parse (loads : String → Except PyErr JValue)
    (env : AgentEnv) (req : AnalysisRequest) (resp : UpstreamResponse)
    (ud : JValue) (pr : String) (mr : ModelResponse) (t : String) (p : JValue)
    (hf : env.fetch req.mockDataApiUrl req.userId = .ok resp)
    (hst : resp.status = 200)
    (hud : loads resp.bodyText = .ok ud)
    (hbp : buildPrompt ud = .ok pr)
    (hgen : env.generate pr = .ok mr)
    (htext : mr.text = .ok t)
    (hprof : getKey ud "profile" = .ok p) :
    (∀ v, loads (String.mk (stripFence t.data)) = .ok v →
      analyze_career_path loads env req =
        .success (.obj
          [("success", .bool true), ("userId", .str req.userId), ("userProfile", p),
           ("analysis", v), ("confidence", .str "high")])) ∧
    (∀ m, loads (String.mk (stripFence t.data)) = .error (.jsonDecodeError m) →
      analyze_career_path loads env req =
        .success (.obj
          [("success", .bool true), ("userId", .str req.userId), ("userProfile", p),
           ("analysis", fallbackRecommendation), ("confidence", .str "high")])) := by
  constructor
  · intro v hparse
    unfold analyze_career_path analyze_career_path_core afterStatusCheck parseModelOutput
      extractModelText
    rw [hf]
    simp [hst, hud, hbp, hgen, htext, hparse, hprof]
  · intro m hparse
    unfold analyze_career_path analyze_career_path_core afterStatusCheck parseModelOutput
      extractModelText
    rw [hf]
    simp [hst, hud, hbp, hgen, htext, hparse, hprof]

theorem c4_amended_witness :
    (analyze_career_path loadsC4 ⟨fun _ _ => FetchResult.ok ⟨200, "BODY"⟩, genC4⟩
        ⟨"u4w", "http://mock-data-api-service:8080"⟩ =
      .success (.obj
        [("success", .bool true), ("userId", .str "u4w"), ("userProfile", .str "Engineer"),
         ("analysis", .obj [("foo", .num 1)]), ("confidence", .str "high")])) ∧
    (analyze_career_path loadsC4 ⟨fun _ _ => FetchResult.ok ⟨200, "BODY"⟩, genStub⟩
        ⟨"u4w", "http://mock-data-api-service:8080"⟩ =
      .success (.obj
        [("success", .bool true), ("userId", .str "u4w"), ("userProfile", .str "Engineer"),
         ("analysis", fallbackRecommendation), ("confidence", .str "high")])) :=
  ⟨(c4_amended_generic_json_parse loadsC4 ⟨fun _ _ => FetchResult.ok ⟨200, "BODY"⟩, genC4⟩
      ⟨"u4w", "http://mock-data-api-service:8080"⟩ ⟨200, "BODY"⟩ sampleUserData _
      ⟨.ok "WRONG"⟩ "WRONG" (.str "Engineer")
      rfl rfl rfl rfl rfl rfl rfl).1 (.obj [("foo", .num 1)]) rfl,
   (c4_amended_generic_json_parse loadsC4 ⟨fun _ _ => FetchResult.ok ⟨200, "BODY"⟩, genStub⟩
      ⟨"u4w", "http://mock-data-api-service:8080"⟩ ⟨200, "BODY"⟩ sampleUserData _
      ⟨.ok "plain text with no json in it"⟩ "plain text with no json in it" (.str "Engineer")
      rfl rfl rfl rfl rfl rfl rfl).2 "Expecting value: line 1 column 1 (char 0)" rfl⟩

/-- C5: for model output containing a fenced block labeled `json` whose
extracted content is valid JSON matching the `CareerRecommendation` shape,
the `analysis` field of the returned envelope equals the parsed value
exactly. -/
theorem fenced_json_parsed_exactly (loads : String → Except PyErr JValue)
    (env : AgentEnv) (req : AnalysisRequest) (resp : UpstreamResponse)
    (ud : JValue) (pr : String) (mr : ModelResponse) (t : String) (v p : JValue)
    (hf : env.fetch req.mockDataApiUrl req.userId = .ok resp)
    (hst : resp.status = 200)
    (hud : loads resp.bodyText = .ok ud)
    (hbp : buildPrompt ud = .ok pr)
    (hgen : env.generate pr = .ok mr)
    (htext : mr.text = .ok t)
    (hfence : occursIn fenceJson t.data = true)
    (hparse : loads (String.mk (stripFence t.data)) = .ok v)
    (hshape : matchesCareerRecommendation v = true)
    (hprof : getKey ud "profile" = .ok p) :
    analyze_career_path loads env req =
      .success (.obj
        [("success", .bool true), ("userId", .str req.userId), ("userProfile", p),
         ("analysis", v), ("confidence", .str "high")]) := by
  unfold analyze_career_path analyze_career_path_core afterStatusCheck parseModelOutput
    extractModelText
  rw [hf]
  simp [hst, hud, hbp, hgen, htext, hparse, hprof]

theorem fenced_json_parsed_exactly_witness :
    analyze_career_path loadsOk
        ⟨fun _ _ => FetchResult.ok ⟨200, "BODY"⟩,
         fun _ => .ok ⟨.ok "```jsonREC```"⟩⟩
        ⟨"u5", "http://mock-data-api-service:8080"⟩ =
      .success (.obj
        [("success", .bool true), ("userId", .str "u5"), ("userProfile", .str "Engineer"),
         ("analysis", recGood), ("confidence", .str "high")]) :=
  fenced_json_parsed_exactly loadsOk
    ⟨fun _ _ => FetchResult.ok ⟨200, "BODY"⟩, fun _ => .ok ⟨.ok "```jsonREC```"⟩⟩
    ⟨"u5", "http://mock-data-api-service:8080"⟩ ⟨200, "BODY"⟩ sampleUserData _
    ⟨.ok "```jsonREC```"⟩ "```jsonREC```" recGood (.str "Engineer")
    rfl rfl rfl rfl rfl rfl (by decide) (by rw [stripFence_cases]; rfl) rfl rfl

/-- C7: every successful response is exactly the five-field envelope:
`success = true`, `userId` equal to the request's `userId`, `userProfile`
equal to the `profile` field of the fetched user data, `analysis` equal to
the recommendation produced by the model-output parse (parsed value or
fallback), and `confidence = "high"`. -/
theorem success_envelope_shape (loads : String → Except PyErr JValue)
    (env : AgentEnv) (req : AnalysisRequest) {v : JValue}
    (h : analyze_career_path loads env req = .success v) :
    ∃ resp ud pr mr rec p,
      env.fetch req.mockDataApiUrl req.userId = .ok resp ∧ resp.status = 200 ∧
      loads resp.bodyText = .ok ud ∧ buildPrompt ud = .ok pr ∧
      env.generate pr = .ok mr ∧ parseModelOutput loads mr = .ok rec ∧
      getKey ud "profile" = .ok p ∧
      v = .obj
        [("success", .bool true), ("userId", .str req.userId), ("userProfile", p),
         ("analysis", rec), ("confidence", .str "high")] := by
  unfold analyze_career_path at h
  cases hcore : analyze_career_path_core loads env req with
  | error e => rw [hcore] at h; simp at h
  | ok w =>
    rw [hcore] at h
    simp only [HttpOutcome.success.injEq] at h
    subst h
    unfold analyze_career_path_core at hcore
    cases hf : env.fetch req.mockDataApiUrl req.userId with
    | transportError m => simp [hf] at hcore
    | ok resp =>
      simp only [hf] at hcore
      by_cases hs : resp.status = 200
      · simp only [hs, ne_eq, not_true_eq_false, if_false] at hcore
        unfold afterStatusCheck at hcore
        cases hud : loads resp.bodyText with
        | error e => simp [hud] at hcore
        | ok ud =>
        simp only [hud] at hcore
        cases hbp : buildPrompt ud with
        | error e => simp [hbp] at hcore
        | ok pr =>
        simp only [hbp] at hcore
        cases hgen : env.generate pr with
        | error e => simp [hgen] at hcore
        | ok mr =>
        simp only [hgen] at hcore
        cases hpmo : parseModelOutput loads mr with
        | error e => simp [hpmo] at hcore
        | ok rec =>
        simp only [hpmo] at hcore
        cases hprof : getKey ud "profile" with
        | error e => simp [hprof] at hcore
        | ok p =>
        simp only [hprof, Except.ok.injEq] at hcore
        exact ⟨resp, ud, pr, mr, rec, p, rfl, hs, hud, hbp, hgen, hpmo, hprof, hcore.symm⟩
      · simp [hs] at hcore

/-- The all-success environment used by the envelope-shape witness. -/
def env7 : AgentEnv := ⟨fun _ _ => FetchResult.ok ⟨200, "BODY"⟩, genStub⟩

theorem success_envelope_shape_witness :
    ∃ resp ud pr mr rec p,
      env7.fetch "http://mock-data-api-service:8080" "u7" = .ok resp ∧ resp.status = 200 ∧
      loadsOk resp.bodyText = .ok ud ∧ buildPrompt ud = .ok pr ∧
      env7.generate pr = .ok mr ∧ parseModelOutput loadsOk mr = .ok rec ∧
      getKey ud "profile" = .ok p ∧
      JValue.obj
          [("success", .bool true), ("userId", .str "u7"),
           ("userProfile", .str "Engineer"), ("analysis", fallbackRecommendation),
           ("confidence", .str "high")] =
        .obj
          [("success", .bool true), ("userId", .str "u7"), ("userProfile", p),
           ("analysis", rec), ("confidence", .str "high")] :=
  success_envelope_shape loadsOk env7 ⟨"u7", "http://mock-data-api-service:8080"⟩ rfl

/-- C8: for a user-data object providing all referenced fields, the rendered
prompt is a deterministic function of those field values (any object with the
same field values yields the same prompt), and it contains every rendered
field value verbatim: `str()` of name, profile, monthlyIncome and
careerStage, `json.dumps(..., indent=2)` of spendingCategories and
recentTransactions, and the `", "`-join of goals. -/
theorem prompt_contains_fields (ud : JValue)
    (nameV profileV incomeV stageV spendingV txnsV goalsV : JValue) (goalsStr : String)
    (hn : getKey ud "name" = .ok nameV)
    (hp : getKey ud "profile" = .ok profileV)
    (hi : getKey ud "monthlyIncome" = .ok incomeV)
    (hc : getKey ud "careerStage" = .ok stageV)
    (hs : getKey ud "spendingCategories" = .ok spendingV)
    (ht : getKey ud "recentTransactions" = .ok txnsV)
    (hg : getKey ud "goals" = .ok goalsV)
    (hj : pyJoin ", " goalsV = .ok goalsStr) :
    ∃ p, buildPrompt ud = .ok p ∧
      strContains p (pyStr nameV) ∧ strContains p (pyStr profileV) ∧
      strContains p (pyStr incomeV) ∧ strContains p (pyStr stageV) ∧
      strContains p (dumps2 spendingV) ∧ strContains p (dumps2 txnsV) ∧
      strContains p goalsStr ∧
      (∀ ud2, getKey ud2 "name" = .ok nameV → getKey ud2 "profile" = .ok profileV →
        getKey ud2 "monthlyIncome" = .ok incomeV → getKey ud2 "careerStage" = .ok stageV →
        getKey ud2 "spendingCategories" = .ok spendingV →
        getKey ud2 "recentTransactions" = .ok txnsV → getKey ud2 "goals" = .ok goalsV →
        buildPrompt ud2 = buildPrompt ud) := by
  have hbp : buildPrompt ud = .ok
      (promptP1 ++ (pyStr nameV ++ (" - " ++ (pyStr profileV ++ (promptP2 ++ (pyStr incomeV ++
        (promptP3 ++ (pyStr stageV ++ (promptP4 ++ (dumps2 spendingV ++ (promptP5 ++
        (dumps2 txnsV ++ (promptP6 ++ (goalsStr ++ promptP7)))))))))))))) := by
    unfold buildPrompt
    simp only [hn, hp, hi, hc, hs, ht, hg, hj]
  refine ⟨_, hbp, ?_, ?_, ?_, ?_, ?_, ?_, ?_, ?_⟩
  · exact strContains_cons promptP1 (strContains_head _ _)
  · exact strContains_cons promptP1 (strContains_cons (pyStr nameV)
      (strContains_cons " - " (strContains_head _ _)))
  · exact strContains_cons promptP1 (strContains_cons (pyStr nameV)
      (strContains_cons " - " (strContains_cons (pyStr profileV)
        (strContains_cons promptP2 (strContains_head _ _)))))
  · exact strContains_cons promptP1 (strContains_cons (pyStr nameV)
      (strContains_cons " - " (strContains_cons (pyStr profileV)
        (strContains_cons promptP2 (strContains_cons (pyStr incomeV)
          (strContains_cons promptP3 (strContains_head _ _)))))))
  · exact strContains_cons promptP1 (strContains_cons (pyStr nameV)
      (strContains_cons " - " (strContains_cons (pyStr profileV)
        (strContains_cons promptP2 (strContains_cons (pyStr incomeV)
          (strContains_cons promptP3 (strContains_cons (pyStr stageV)
            (strContains_cons promptP4 (strContains_head _ _)))))))))
  · exact strContains_cons promptP1 (strContains_cons (pyStr nameV)
      (strContains_cons " - " (strContains_cons (pyStr profileV)
        (strContains_cons promptP2 (strContains_cons (pyStr incomeV)
          (strContains_cons promptP3 (strContains_cons (pyStr stageV)
            (strContains_cons promptP4 (strContains_cons (dumps2 spendingV)
              (strContains_cons promptP5 (strContains_head _ _)))))))))))
  · exact strContains_cons promptP1 (strContains_cons (pyStr nameV)
      (strContains_cons " - " (strContains_cons (pyStr profileV)
        (strContains_cons promptP2 (strContains_cons (pyStr incomeV)
          (strContains_cons promptP3 (strContains_cons (pyStr stageV)
            (strContains_cons promptP4 (strContains_cons (dumps2 spendingV)
              (strContains_cons promptP5 (strContains_cons (dumps2 txnsV)
                (strContains_cons promptP6 (strContains_head _ _)))))))))))))
  · intro ud2 h1 h2 h3 h4 h5 h6 h7
    unfold buildPrompt
    simp only [hn, hp, hi, hc, hs, ht, hg, h1, h2, h3, h4, h5, h6, h7, hj]

theorem prompt_contains_fields_witness :
    ∃ p, buildPrompt sampleUserData = .ok p ∧
      strContains p (pyStr (.str "Alice")) ∧ strContains p (pyStr (.str "Engineer")) ∧
      strContains p (pyStr (.num 5000)) ∧ strContains p (pyStr (.str "mid")) ∧
      strContains p (dumps2 (.obj [("rent", .num 1500)])) ∧
      strContains p (dumps2 (.arr [.obj [("desc", .str "coffee"), ("amount", .num 4)]])) ∧
      strContains p "save more, learn python" ∧
      (∀ ud2, getKey ud2 "name" = .ok (.str "Alice") →
        getKey ud2 "profile" = .ok (.str "Engineer") →
        getKey ud2 "monthlyIncome" = .ok (.num 5000) →
        getKey ud2 "careerStage" = .ok (.str "mid") →
        getKey ud2 "spendingCategories" = .ok (.obj [("rent", .num 1500)]) →
        getKey ud2 "recentTransactions" =
          .ok (.arr [.obj [("desc", .str "coffee"), ("amount", .num 4)]]) →
        getKey ud2 "goals" = .ok (.arr [.str "save more", .str "learn python"]) →
        buildPrompt ud2 = buildPrompt sampleUserData) :=
  prompt_contains_fields sampleUserData (.str "Alice") (.str "Engineer") (.num 5000)
    (.str "mid") (.obj [("rent", .num 1500)])
    (.arr [.obj [("desc", .str "coffee"), ("amount", .num 4)]])
    (.arr [.str "save more", .str "learn python"]) "save more, learn python"
    rfl rfl rfl rfl rfl rfl rfl rfl

/-- A `json.loads` oracle whose parsed body is missing the `name` field. -/
def loadsMiss : String → Except PyErr JValue :=
  fun s =>
    if s = "MISS" then .ok (.obj [("profile", .str "x")])
    else .error (.jsonDecodeError "Expecting value: line 1 column 1 (char 0)")

/-- C9: every failure inside the handler other than the NotFound status
check — a transport error on the upstream call, a non-JSON upstream body, an
upstream body missing any referenced field, and in general any exception the
try body raises — is caught and surfaced as HTTP 500 whose detail is
`"Analysis failed: "` followed by the failure message, and no success
envelope is returned in that case. -/
theorem other_failures_surface_as_500 (loads : String → Except PyErr JValue)
    (env : AgentEnv) (req : AnalysisRequest) :
    (∀ m, env.fetch req.mockDataApiUrl req.userId = .transportError m →
      analyze_career_path loads env req = .failure 500 ("Analysis failed: " ++ m)) ∧
    (∀ resp e, env.fetch req.mockDataApiUrl req.userId = .ok resp → resp.status = 200 →
      loads resp.bodyText = .error e →
      analyze_career_path loads env req =
        .failure 500 ("Analysis failed: " ++ pyStrOfErr e)) ∧
    (∀ resp ud f err, env.fetch req.mockDataApiUrl req.userId = .ok resp →
      resp.status = 200 → loads resp.bodyText = .ok ud → f ∈ promptFields →
      getKey ud f = .error err →
      ∃ d, analyze_career_path loads env req = .failure 500 ("Analysis failed: " ++ d)) ∧
    (∀ e, analyze_career_path_core loads env req = .error e →
      analyze_career_path loads env req =
        .failure 500 ("Analysis failed: " ++ pyStrOfErr e) ∧
      ∀ v, analyze_career_path loads env req ≠ .success v) := by
  refine ⟨?_, ?_, ?_, ?_⟩
  · intro m hm
    unfold analyze_career_path analyze_career_path_core
    simp [hm, pyStrOfErr]
  · intro resp e hf h200 hbody
    unfold analyze_career_path analyze_career_path_core afterStatusCheck
    simp [hf, h200, hbody]
  · intro resp ud f err hf h200 hbody hmem herr
    cases hbp : buildPrompt ud with
    | ok p =>
      obtain ⟨w, hw⟩ := buildPrompt_field_ok hbp hmem
      rw [herr] at hw
      simp at hw
    | error e =>
      refine ⟨pyStrOfErr e, ?_⟩
      unfold analyze_career_path analyze_career_path_core afterStatusCheck
      simp [hf, h200, hbody, hbp]
  · intro e he
    constructor
    · unfold analyze_career_path
      simp [he]
    · intro v hv
      unfold analyze_career_path at hv
      rw [he] at hv
      simp at hv

theorem other_failures_surface_as_500_witness :
    (analyze_career_path loadsStub
        ⟨fun _ _ => FetchResult.transportError "ConnectError: connection refused", genStub⟩
        ⟨"u9", "http://mock-data-api-service:8080"⟩ =
      .failure 500 ("Analysis failed: " ++ "ConnectError: connection refused")) ∧
    (analyze_career_path loadsStub
        ⟨fun _ _ => FetchResult.ok ⟨200, "<html>not json</html>"⟩, genStub⟩
        ⟨"u9", "http://mock-data-api-service:8080"⟩ =
      .failure 500
        ("Analysis failed: " ++
          pyStrOfErr (.jsonDecodeError "Expecting value: line 1 column 1 (char 0)"))) ∧
    (∃ d, analyze_career_path loadsMiss
        ⟨fun _ _ => FetchResult.ok ⟨200, "MISS"⟩, genStub⟩
        ⟨"u9", "http://mock-data-api-service:8080"⟩ =
      .failure 500 ("Analysis failed: " ++ d)) :=
  ⟨(other_failures_surface_as_500 loadsStub
      ⟨fun _ _ => FetchResult.transportError "ConnectError: connection refused", genStub⟩
      ⟨"u9", "http://mock-data-api-service:8080"⟩).1
      "ConnectError: connection refused" rfl,
   (other_failures_surface_as_500 loadsStub
      ⟨fun _ _ => FetchResult.ok ⟨200, "<html>not json</html>"⟩, genStub⟩
      ⟨"u9", "http://mock-data-api-service:8080"⟩).2.1
      ⟨200, "<html>not json</html>"⟩
      (.jsonDecodeError "Expecting value: line 1 column 1 (char 0)") rfl rfl rfl,
   (other_failures_surface_as_500 loadsMiss
      ⟨fun _ _ => FetchResult.ok ⟨200, "MISS"⟩, genStub⟩
      ⟨"u9", "http://mock-data-api-service:8080"⟩).2.2.1
      ⟨200, "MISS"⟩ (.obj [("profile", .str "x")]) "name" (.keyError "name")
      rfl rfl rfl (by simp [promptFields]) rfl⟩

/-- C10: the fallback recommendation is substituted only on a
`JSONDecodeError`; any other exception raised while handling the model
response — for example an `AttributeError` when reading `response.text` —
escapes the inner `except json.JSONDecodeError` clause, propagates to the
outer handler and is surfaced as HTTP 500, not as a degraded success
envelope. -/
theorem nonjson_model_error_propagates (loads : String → Except PyErr JValue)
    (env : AgentEnv) (req : AnalysisRequest) (resp : UpstreamResponse)
    (ud : JValue) (pr : String) (mr : ModelResponse) (e : PyErr)
    (hf : env.fetch req.mockDataApiUrl req.userId = .ok resp)
    (hst : resp.status = 200)
    (hud : loads resp.bodyText = .ok ud)
    (hbp : buildPrompt ud = .ok pr)
    (hgen : env.generate pr = .ok mr)
    (htext : mr.text = .error e)
    (hnj : ∀ m, e ≠ PyErr.jsonDecodeError m) :
    analyze_career_path loads env req =
      .failure 500 ("Analysis failed: " ++ pyStrOfErr e) ∧
    ∀ v, analyze_career_path loads env req ≠ .success v := by
  have hmain : analyze_career_path loads env req =
      .failure 500 ("Analysis failed: " ++ pyStrOfErr e) := by
    unfold analyze_career_path analyze_career_path_core afterStatusCheck parseModelOutput
      extractModelText
    rw [hf]
    cases e with
    | jsonDecodeError m => exact absurd rfl (hnj m)
    | keyError k => simp [hst, hud, hbp, hgen, htext]
    | typeError m => simp [hst, hud, hbp, hgen, htext]
    | httpException s d => simp [hst, hud, hbp, hgen, htext]
    | transportError m => simp [hst, hud, hbp, hgen, htext]
    | attributeError m => simp [hst, hud, hbp, hgen, htext]
  exact ⟨hmain, fun v hv => by rw [hmain] at hv; exact HttpOutcome.noConfusion hv⟩

theorem nonjson_model_error_propagates_witness :
    analyze_career_path loadsOk
        ⟨fun _ _ => FetchResult.ok ⟨200, "BODY"⟩,
         fun _ => .ok ⟨.error (.attributeError "response has no text")⟩⟩
        ⟨"u10", "http://mock-data-api-service:8080"⟩ =
      .failure 500 ("Analysis failed: " ++ pyStrOfErr (.attributeError "response has no text")) :=
  (nonjson_model_error_propagates loadsOk
    ⟨fun _ _ => FetchResult.ok ⟨200, "BODY"⟩,
     fun _ => .ok ⟨.error (.attributeError "response has no text")⟩⟩
    ⟨"u10", "http://mock-data-api-service:8080"⟩ ⟨200, "BODY"⟩ sampleUserData _
    ⟨.error (.attributeError "response has no text")⟩ (.attributeError "response has no text")
    rfl rfl rfl rfl rfl rfl (fun m h => PyErr.noConfusion h)).1
